import Mathlib

/-!
# Verification of `slurm_plugin/fleet_manager.py`

Shallow embedding of the fleet-manager module of aws-parallelcluster-node:
the `EC2Instance` record, the `FleetManagerFactory` strategy selector, the
request shapers of the two launch strategies (`Ec2RunInstancesManager`,
`Ec2CreateFleetManager`), and the metadata-reconciliation loop
(`_get_instances_info` / `_retrieve_instances_info_from_ec2`).

Conventions of the embedding:
* Python dicts holding raw EC2 instance descriptions become the `InstDesc`
  structure: `InstanceId` is mandatory (the code at
  `_retrieve_instances_info_from_ec2` reads `instance_info["InstanceId"]`
  outside of any `KeyError` handler, so it is assumed present), while the
  fields that may be missing from an eventually-consistent describe response
  (private IP, private DNS name, launch time) are `Option`s.
* Exceptions become `Option`/`Except` results (`KeyError` while building an
  `EC2Instance` is `Option.none`; `ClientError` from the EC2 describe call is
  the `faulted` flag of the per-attempt `Ec2Response`).
* Durations are in milliseconds so everything is a `Nat`:
  `time.sleep(0.1)` is `100`, `0.3 * 2**attempt_count` is
  `300 * 2 ^ attempt_count`, and `secrets.randbelow(500) / 1000` seconds is a
  jitter of strictly less than `500` ms, supplied by an arbitrary function
  `jitter : Nat → Nat` indexed by the 1-based attempt count.
* Logging side effects that claims mention become recorded booleans.
-/

/-- A raw EC2 instance description, as yielded by `describe_instances`
pagination.  `InstanceId` is mandatory (see module docstring); the other
fields are the ones `EC2Instance.from_describe_instance_data` needs and that
may still be absent right after a `create_fleet` launch. -/
structure InstDesc where
  instanceId : String
  privateIp : Option String
  privateDnsName : Option String
  launchTime : Option Nat
deriving DecidableEq, Repr

/-- `EC2Instance` from `fleet_manager.py` lines 27-50: the normalized record
of a launched node.  `slurm_node` is the fifth attribute set by `__init__`
(always `None` at construction and never written in this module); it takes
part in `__eq__`, which compares `self.__dict__`. -/
structure EC2Instance where
  id : String
  private_ip : String
  hostname : String
  launch_time : Nat
  slurm_node : Option String
deriving DecidableEq, Repr

/-- Python `private_dns_name.split(".")[0]`: the substring before the first
dot (the whole string when it has no dot). -/
def hostnameFromDns (dns : String) : String :=
  String.mk (dns.data.takeWhile (fun c => c ≠ '.'))

/-- Modelled from the spec: `get_private_ip_address_and_dns_name`
(`common.ec2_utils`, not part of this source tree) is the "raw instance
description → (private IP, private DNS name)" extractor that fails
(raises `KeyError`, here `none`) if either field is absent. -/
def get_private_ip_address_and_dns_name (d : InstDesc) : Option (String × String) := do
  let ip ← d.privateIp
  let dns ← d.privateDnsName
  return (ip, dns)

/-- `EC2Instance.from_describe_instance_data` (lines 52-64): build a record
from a raw description; any missing required field (`KeyError`) is `none`. -/
def EC2Instance.from_describe_instance_data (d : InstDesc) : Option EC2Instance := do
  let (ip, dns) ← get_private_ip_address_and_dns_name d
  let lt ← d.launchTime
  return ⟨d.instanceId, ip, hostnameFromDns dns, lt, none⟩

/-- `EC2Instance.__eq__` (lines 36-40): `self.__dict__ == other.__dict__`,
i.e. comparison of all five attributes, `slurm_node` included. -/
def EC2Instance.eqPy (a b : EC2Instance) : Bool :=
  (a.id == b.id) && (a.private_ip == b.private_ip) && (a.hostname == b.hostname)
    && (a.launch_time == b.launch_time) && (a.slurm_node == b.slurm_node)

/-- `EC2Instance.__hash__` (lines 49-50): `hash(self.id)`.  The Python
builtin string hash is external, so it is a parameter `strHash`. -/
def EC2Instance.hashPy (strHash : String → Nat) (a : EC2Instance) : Nat :=
  strHash a.id

example : hostnameFromDns "ip-10-0-0-1.ec2.internal" = "ip-10-0-0-1" := by decide
example : hostnameFromDns "nodots" = "nodots" := by decide

/-! ## Metadata reconciliation (`Ec2CreateFleetManager`, lines 383-434) -/

/-- One attempt's answer from the EC2 `describe_instances` pagination:
`delivered` are the descriptions the iterator yielded (in order) before
either finishing or raising `ClientError`; `faulted` says whether a
`ClientError` was raised (possibly mid-iteration, after some descriptions
were already yielded). -/
structure Ec2Response where
  delivered : List InstDesc
  faulted : Bool
deriving DecidableEq, Repr

/-- The `for instance_info in filtered_iterator` body of
`_retrieve_instances_info_from_ec2` (lines 422-429): each delivered
description either parses into an `EC2Instance` (goes to
`complete_instances`, kept as the raw description) or raises `KeyError`
(its `InstanceId` goes to the unresolved list). -/
def classifyDelivered : List InstDesc → List InstDesc × List String
  | [] => ([], [])
  | d :: rest =>
    let (comp, unres) := classifyDelivered rest
    match EC2Instance.from_describe_instance_data d with
    | some _ => (d :: comp, unres)
    | none => (comp, d.instanceId :: unres)

/-- `_retrieve_instances_info_from_ec2` (lines 406-434) given the attempt's
`Ec2Response`: with no ids it does nothing; a `ClientError` (the `faulted`
flag) is caught and every queried id is appended to the unresolved list,
after whatever the iterator already yielded was classified. -/
def retrieve_instances_info_from_ec2 (resp : Ec2Response) (instance_ids : List String) :
    List InstDesc × List String :=
  if instance_ids = [] then ([], [])
  else
    let (complete, unres) := classifyDelivered resp.delivered
    if resp.faulted then (complete, unres ++ instance_ids) else (complete, unres)

/-- Observable outcome of one `_get_instances_info` call: the raw
descriptions collected as complete, the ids still unresolved, the sleeps
performed (in milliseconds, in order, the initial fixed 100 ms delay
included), and the number of `describe_instances` query attempts made. -/
structure ReconOut where
  instances : List InstDesc
  unresolvedIds : List String
  sleeps : List Nat
  queries : Nat
deriving DecidableEq, Repr

/-- The `while attempt_count < retries and partial_instance_ids` loop of
`_get_instances_info` (lines 397-402).  `fuel = retries - attempt_count`
makes the recursion structural; `oracle ac ids` is the EC2 answer to the
describe call of 0-based attempt `ac` on `ids`; `jitter k < 500` stands for
`secrets.randbelow(500)` of the sleep after the `k`-th (1-based) attempt.
Note the backoff sleep is taken whenever `attempt_count < retries` after an
attempt, even when that attempt resolved every remaining id. -/
def reconLoop (oracle : Nat → List String → Ec2Response) (jitter : Nat → Nat) (retries : Nat) :
    Nat → Nat → List InstDesc → List String → List Nat → Nat → ReconOut
  | 0, _, instances, unresolved, sleeps, queries =>
    ⟨instances, unresolved, sleeps, queries⟩
  | fuel + 1, attempt_count, instances, unresolved, sleeps, queries =>
    if unresolved = [] then ⟨instances, unresolved, sleeps, queries⟩
    else
      let res := retrieve_instances_info_from_ec2 (oracle attempt_count unresolved) unresolved
      let ac := attempt_count + 1
      reconLoop oracle jitter retries fuel ac (instances ++ res.1) res.2
        (if ac < retries then sleeps ++ [300 * 2 ^ ac + jitter ac] else sleeps)
        (queries + 1)

/-- `_get_instances_info` (lines 383-404): fixed `time.sleep(0.1)` (100 ms)
before the first query, then the bounded retry loop with `retries = 5`. -/
def get_instances_info (oracle : Nat → List String → Ec2Response) (jitter : Nat → Nat)
    (instance_ids : List String) : ReconOut :=
  reconLoop oracle jitter 5 5 0 [] instance_ids [100] 0

/-- An oracle whose every attempt faults with nothing delivered (network
down): sanity check that nothing ever resolves and all five attempts run. -/
def allFaultOracle : Nat → List String → Ec2Response := fun _ _ => ⟨[], true⟩

example :
    get_instances_info allFaultOracle (fun _ => 0) ["i-1", "i-2"] =
      ⟨[], ["i-1", "i-2"], [100, 600, 1200, 2400, 4800], 5⟩ := by decide

example : get_instances_info allFaultOracle (fun _ => 0) [] = ⟨[], [], [100], 0⟩ := by decide

/-! ## Compute-resource configuration and the strategy-B request shaper -/

/-- One entry of the `Instances` list of a compute resource config. -/
structure InstanceTypeConfig where
  InstanceType : String
deriving DecidableEq, Repr

/-- The `Networking` sub-tree. -/
structure NetworkingConfig where
  SubnetIds : List String
deriving DecidableEq, Repr

/-- The compute-resource configuration sub-tree the shapers read.  It is
modelled as a total record: the `KeyError → FleetManagerException` wrapping
of lines 343-349 concerns configs missing required keys, which no claim
exercises.  `MaxPrice` keeps dict-truthiness: absent (`none`) or present;
the source applies `str(...)` to it, so it is already a string here. -/
structure ComputeResourceConfig where
  CapacityType : String
  AllocationStrategy : String
  MaxPrice : Option String
  Instances : List InstanceTypeConfig
  Networking : NetworkingConfig
deriving DecidableEq, Repr

/-- Python truthiness of `self._compute_resource_config.get("MaxPrice")`:
absent or an empty/zero-like value is falsy.  Stringified prices are
non-empty, so nonemptiness is the residual truthiness check. -/
def maxPriceTruthy : Option String → Bool
  | none => false
  | some s => s ≠ ""

/-- One entry of the `Overrides` list of a `LaunchTemplateConfigs` element. -/
structure TemplateOverride where
  MaxPrice : Option String
  InstanceType : String
  SubnetId : String
deriving DecidableEq, Repr

namespace Ec2CreateFleetManager

/-- `_uses_single_instance_type` (lines 282-284). -/
def uses_single_instance_type (cfg : ComputeResourceConfig) : Bool :=
  cfg.Instances.length == 1

/-- `_uses_single_az` (lines 286-289). -/
def uses_single_az (cfg : ComputeResourceConfig) : Bool :=
  cfg.Networking.SubnetIds.length == 1

/-- `_evaluate_template_overrides` (lines 263-280).  The source mutates one
`overrides` dict — `MaxPrice` set once up front on the spot branch, then
`InstanceType`/`SubnetId` overwritten per iteration, a deep copy appended
each time — so every appended entry carries the same `MaxPrice` and the
pair of the current outer (instance type) and inner (subnet) loop values. -/
def evaluate_template_overrides (cfg : ComputeResourceConfig) : List TemplateOverride :=
  let mp : Option String :=
    if cfg.CapacityType == "spot" && maxPriceTruthy cfg.MaxPrice then cfg.MaxPrice else none
  cfg.Instances.flatMap fun it =>
    cfg.Networking.SubnetIds.map fun subnet_id =>
      { MaxPrice := mp, InstanceType := it.InstanceType, SubnetId := subnet_id }

/-- The create-fleet request as shaped by `_evaluate_launch_params`
(lines 291-354), before `launch_params.update(self._launch_overrides)`.
The nesting under `SpotOptions`/`OnDemandOptions` is flattened into the
`isSpot` tag; `warningLogged` records the `logger.warning` of lines 306-310;
`capacityReservationUsageStrategy` is the extra on-demand option of
line 318. -/
structure CreateFleetLaunchParams where
  AllocationStrategy : String
  SingleInstanceType : Bool
  SingleAvailabilityZone : Bool
  MinTargetCapacity : Option Nat
  isSpot : Bool
  capacityReservationUsageStrategy : Option String
  LaunchTemplateName : String
  LaunchTemplateVersion : String
  Overrides : List TemplateOverride
  TotalTargetCapacity : Nat
  DefaultTargetCapacityType : String
  fleetType : String
  warningLogged : Bool
deriving DecidableEq, Repr

/-- `_evaluate_launch_params` of `Ec2CreateFleetManager` (lines 291-354),
still without the caller-override merge of line 351. -/
def evaluate_launch_params (cluster_name queue compute_resource : String)
    (cfg : ComputeResourceConfig) (all_or_nothing : Bool) (count : Nat) :
    CreateFleetLaunchParams :=
  { AllocationStrategy := cfg.AllocationStrategy
    SingleInstanceType := uses_single_instance_type cfg
    SingleAvailabilityZone := uses_single_az cfg
    MinTargetCapacity :=
      if uses_single_az cfg || uses_single_instance_type cfg then
        some (if all_or_nothing then count else 1)
      else none
    isSpot := cfg.CapacityType == "spot"
    capacityReservationUsageStrategy :=
      if cfg.CapacityType == "spot" then none else some "use-capacity-reservations-first"
    LaunchTemplateName := cluster_name ++ "-" ++ queue ++ "-" ++ compute_resource
    LaunchTemplateVersion := "$Latest"
    Overrides := evaluate_template_overrides cfg
    TotalTargetCapacity := count
    DefaultTargetCapacityType := cfg.CapacityType
    fleetType := "instant"
    warningLogged :=
      !uses_single_az cfg && !uses_single_instance_type cfg && all_or_nothing }

end Ec2CreateFleetManager

/-! ## Strategy-A request shaper (`Ec2RunInstancesManager`, lines 211-227) -/

/-- The run-instances request as shaped by `_evaluate_launch_params`
(lines 211-227), before `launch_params.update(self._launch_overrides)`. -/
structure RunInstancesLaunchParams where
  MinCount : Nat
  MaxCount : Nat
  LaunchTemplateName : String
  LaunchTemplateVersion : String
deriving DecidableEq, Repr

namespace Ec2RunInstancesManager

/-- `_evaluate_launch_params` of `Ec2RunInstancesManager` (lines 211-227):
`"MinCount": 1 if not self._all_or_nothing else count`. -/
def evaluate_launch_params (cluster_name queue compute_resource : String)
    (all_or_nothing : Bool) (count : Nat) : RunInstancesLaunchParams :=
  { MinCount := if !all_or_nothing then 1 else count
    MaxCount := count
    LaunchTemplateName := cluster_name ++ "-" ++ queue ++ "-" ++ compute_resource
    LaunchTemplateVersion := "$Latest" }

end Ec2RunInstancesManager

/-! ## The strategy selector (`FleetManagerFactory.get_manager`, lines 74-127) -/

/-- A string-keyed dict, as an association list (first binding wins). -/
def dictGet {β : Type} (m : List (String × β)) (k : String) : Option β :=
  (m.find? (fun e => e.1 == k)).map (fun e => e.2)

/-- `m.get(k, d)` — dict lookup with a default. -/
def dictGetD {β : Type} (m : List (String × β)) (k : String) (d : β) : β :=
  (dictGet m k).getD d

/-- The compute-resource entry of the fleet config as the factory reads it:
the `Api` key may be absent (that is a distinct `KeyError`), the rest is the
config sub-tree handed to the constructed manager. -/
structure CRConfigEntry where
  Api : Option String
  config : ComputeResourceConfig
deriving DecidableEq, Repr

/-- `fleet_config`: queue name → compute resource name → entry. -/
abbrev FleetConfigModel := List (String × List (String × CRConfigEntry))

/-- `run_instances_overrides` / `create_fleet_overrides`: queue name →
compute resource name → opaque key→value override mapping. -/
abbrev OverridesModel := List (String × List (String × List (String × String)))

/-- The errors `FleetManagerFactory.get_manager` raises
(`FleetManagerException`, lines 91-100 and 124-127), kept structured so each
constructor carries exactly the names its message interpolates:
`missingApiKey` renders "Unable to find 'Api' key in the compute resource
'…', in the fleet config: …", `missingQueueOrComputeResource` renders
"Unable to find queue '…' or compute resource '…' in the fleet config: …",
and `unsupportedApi` renders "Unsupported Api '…' specified in queue '…',
compute resource '…'". -/
inductive FactoryError where
  | missingApiKey (compute_resource : String)
  | missingQueueOrComputeResource (queue compute_resource : String)
  | unsupportedApi (api queue compute_resource : String)
deriving DecidableEq, Repr

/-- Lines 91-100: the `except KeyError` handler dispatches on the missing
key's name — `e.args[0] == "Api"` selects the 'Api'-flavoured message, any
other missing key (the queue or the compute resource) the other one. -/
def keyErrorMessage (missing_key queue compute_resource : String) : FactoryError :=
  if missing_key == "Api" then .missingApiKey compute_resource
  else .missingQueueOrComputeResource queue compute_resource

/-- The manager the factory constructs, carrying the bindings lines 102-123
pass to the constructors that the claims mention. -/
inductive FleetManagerModel where
  | createFleetManager (queue compute_resource : String) (cfg : ComputeResourceConfig)
      (all_or_nothing : Bool) (launch_overrides : List (String × String))
  | runInstancesManager (queue compute_resource : String) (cfg : ComputeResourceConfig)
      (all_or_nothing : Bool) (launch_overrides : List (String × String))
deriving DecidableEq, Repr

namespace FleetManagerFactory

/-- `FleetManagerFactory.get_manager` (lines 74-127).  `cluster_name`,
`region` and `boto3_config` are opaque pass-throughs and omitted. -/
def get_manager (fleet_config : FleetConfigModel) (queue compute_resource : String)
    (all_or_nothing : Bool) (run_instances_overrides create_fleet_overrides : OverridesModel) :
    Except FactoryError FleetManagerModel :=
  match dictGet fleet_config queue with
  | none => .error (keyErrorMessage queue queue compute_resource)
  | some queue_config =>
    match dictGet queue_config compute_resource with
    | none => .error (keyErrorMessage compute_resource queue compute_resource)
    | some entry =>
      match entry.Api with
      | none => .error (keyErrorMessage "Api" queue compute_resource)
      | some api =>
        if api == "create-fleet" then
          .ok (.createFleetManager queue compute_resource entry.config all_or_nothing
            (dictGetD (dictGetD create_fleet_overrides queue []) compute_resource []))
        else if api == "run-instances" then
          .ok (.runInstancesManager queue compute_resource entry.config all_or_nothing
            (dictGetD (dictGetD run_instances_overrides queue []) compute_resource []))
        else
          .error (.unsupportedApi api queue compute_resource)

end FleetManagerFactory

/-! ## Launch execution for strategy B (`_launch_instances` lines 356-381,
`launch_ec2_instances` lines 162-183) -/

/-- One element of the `Instances` list of a `create_fleet` response. -/
structure CreateFleetInstanceGroup where
  InstanceIds : List String
deriving DecidableEq, Repr

/-- The parts of a successful `create_fleet` response the code reads. -/
structure CreateFleetResponse where
  Instances : List CreateFleetInstanceGroup
  Errors : List (String × String)
deriving DecidableEq, Repr

/-- Observable outcome of `launch_ec2_instances` on the create-fleet path:
the records returned to the caller (`none` would be an uncaught `KeyError`
while mapping `from_describe_instance_data` over the final list), the
reconciliation loop's sleeps and query count, and the two logs the claims
mention (the error of line 376 for unresolved ids, the info summary of
lines 177-180 guarded by `len(assigned_nodes.get("Instances")) > 0`). -/
structure LaunchOutcome where
  records : Option (List EC2Instance)
  unresolvedIds : List String
  sleeps : List Nat
  queries : Nat
  unresolvedErrorLogged : Bool
  infoSummaryLogged : Bool
deriving DecidableEq, Repr

/-- `Ec2CreateFleetManager._launch_instances` on a non-faulting
`create_fleet` call (lines 362-378) composed with the tail of
`launch_ec2_instances` (lines 176-183): flatten the returned id groups,
reconcile, log, and build the `EC2Instance` records. -/
def createFleetLaunch (oracle : Nat → List String → Ec2Response) (jitter : Nat → Nat)
    (response : CreateFleetResponse) : LaunchOutcome :=
  let instance_ids := response.Instances.flatMap (fun g => g.InstanceIds)
  let recon := get_instances_info oracle jitter instance_ids
  { records := recon.instances.mapM EC2Instance.from_describe_instance_data
    unresolvedIds := recon.unresolvedIds
    sleeps := recon.sleeps
    queries := recon.queries
    unresolvedErrorLogged := recon.unresolvedIds ≠ []
    infoSummaryLogged := recon.instances.length > 0 }

/-! ## Concrete fixtures used by witnesses and counterexamples -/

/-- A fully-populated raw description: parses into an `EC2Instance`. -/
def goodDesc (iid : String) : InstDesc :=
  ⟨iid, some "10.0.0.1", some "ip-10-0-0-1.ec2.internal", some 5⟩

/-- A description with every backfillable field still absent: parsing it
raises `KeyError` (here `none`). -/
def badDesc (iid : String) : InstDesc := ⟨iid, none, none, none⟩

/-- An EC2 whose attempt 1 resolves `i-1` but not `i-2`, and whose later
attempts resolve everything still queried. -/
def twoStepOracle : Nat → List String → Ec2Response := fun ac ids =>
  if ac = 0 then ⟨[goodDesc "i-1", badDesc "i-2"], false⟩
  else ⟨ids.map goodDesc, false⟩

/-- An EC2 whose attempt 1 yields a complete description for `i-1` and then
raises `ClientError` mid-pagination; later attempts answer normally. -/
def faultyOracle : Nat → List String → Ec2Response := fun ac ids =>
  if ac = 0 then ⟨[goodDesc "i-1"], true⟩ else ⟨ids.map goodDesc, false⟩

/-- An EC2 that always answers with a complete description per queried id. -/
def resolveAllOracle : Nat → List String → Ec2Response := fun _ ids =>
  ⟨ids.map goodDesc, false⟩

/-- A spot compute resource spanning 2 instance types × 2 subnets. -/
def cfgMulti : ComputeResourceConfig :=
  { CapacityType := "spot"
    AllocationStrategy := "lowest-price"
    MaxPrice := some "0.5"
    Instances := [⟨"c5.large"⟩, ⟨"m5.large"⟩]
    Networking := ⟨["subnet-1", "subnet-2"]⟩ }

/-- An on-demand compute resource with a single instance type. -/
def cfgSingle : ComputeResourceConfig :=
  { CapacityType := "on-demand"
    AllocationStrategy := "lowest-price"
    MaxPrice := none
    Instances := [⟨"c5.large"⟩]
    Networking := ⟨["subnet-1", "subnet-2"]⟩ }

/-- The queue sub-tree of `fleetConfigW`, exercising every `Api` case. -/
def queueConfigW : List (String × CRConfigEntry) :=
  [("cr1", ⟨some "run-instances", cfgSingle⟩),
   ("cr2", ⟨some "create-fleet", cfgMulti⟩),
   ("cr3", ⟨some "slurm", cfgMulti⟩),
   ("cr4", ⟨none, cfgMulti⟩)]

/-- A fleet config exercising every branch of the factory. -/
def fleetConfigW : FleetConfigModel := [("q1", queueConfigW)]

/-- A `create_fleet` response carrying only partial errors: one id group,
itself empty, so zero launched instance ids in total. -/
def emptyLaunchResponse : CreateFleetResponse :=
  ⟨[⟨[]⟩], [("InsufficientInstanceCapacity", "There is no Spot capacity available")]⟩

/-- A "clean" per-attempt EC2 answer for `pids`: a fault delivers no
descriptions before raising, and a non-faulting answer delivers exactly one
description per queried id (in some order). -/
def cleanResponse (resp : Ec2Response) (pids : List String) : Prop :=
  (resp.faulted = true → resp.delivered = [])
  ∧ (resp.faulted = false → (resp.delivered.map (fun d => d.instanceId)).Perm pids)

/-! ## Helper lemmas about the reconciliation loop -/

theorem reconLoop_zero (o : Nat → List String → Ec2Response) (j : Nat → Nat) (r ac : Nat)
    (inst : List InstDesc) (pids : List String) (sleeps : List Nat) (q : Nat) :
    reconLoop o j r 0 ac inst pids sleeps q = ⟨inst, pids, sleeps, q⟩ := rfl

theorem reconLoop_succ (o : Nat → List String → Ec2Response) (j : Nat → Nat) (r fuel ac : Nat)
    (inst : List InstDesc) (pids : List String) (sleeps : List Nat) (q : Nat) :
    reconLoop o j r (fuel + 1) ac inst pids sleeps q =
      if pids = [] then ⟨inst, pids, sleeps, q⟩
      else
        reconLoop o j r fuel (ac + 1)
          (inst ++ (retrieve_instances_info_from_ec2 (o ac pids) pids).1)
          (retrieve_instances_info_from_ec2 (o ac pids) pids).2
          (if ac + 1 < r then sleeps ++ [300 * 2 ^ (ac + 1) + j (ac + 1)] else sleeps)
          (q + 1) := rfl

/-- The query counter only grows: whatever the loop returns made at least as
many describe attempts as its accumulator says. -/
theorem reconLoop_queries_ge (o : Nat → List String → Ec2Response) (j : Nat → Nat) (r : Nat) :
    ∀ fuel ac inst pids sleeps q, q ≤ (reconLoop o j r fuel ac inst pids sleeps q).queries := by
  intro fuel
  induction fuel with
  | zero => intro ac inst pids sleeps q; simp [reconLoop_zero]
  | succ n ih =>
    intro ac inst pids sleeps q
    rw [reconLoop_succ]
    by_cases h : pids = []
    · simp [h]
    · rw [if_neg h]
      exact le_trans (Nat.le_succ q) (ih _ _ _ _ _)

/-- Classifying delivered descriptions loses and invents nothing: complete
ids plus still-unresolved ids are a permutation of the delivered ids. -/
theorem classifyDelivered_perm (l : List InstDesc) :
    ((classifyDelivered l).1.map (fun d => d.instanceId) ++ (classifyDelivered l).2).Perm
      (l.map (fun d => d.instanceId)) := by
  induction l with
  | nil => simp [classifyDelivered]
  | cons d rest ih =>
    simp only [classifyDelivered, List.map_cons]
    cases h : EC2Instance.from_describe_instance_data d with
    | some _ =>
      simp only [h]
      exact ih.cons d.instanceId
    | none =>
      simp only [h]
      exact List.perm_middle.trans (ih.cons d.instanceId)

/-- On a clean answer, one attempt's complete ids plus unresolved ids are a
permutation of the ids it queried. -/
theorem retrieve_perm (resp : Ec2Response) (pids : List String) (hc : cleanResponse resp pids) :
    (((retrieve_instances_info_from_ec2 resp pids).1.map (fun d => d.instanceId))
      ++ (retrieve_instances_info_from_ec2 resp pids).2).Perm pids := by
  by_cases hp : pids = []
  · simp [retrieve_instances_info_from_ec2, hp]
  · cases hf : resp.faulted with
    | true =>
      have hd := hc.1 hf
      simp [retrieve_instances_info_from_ec2, hp, hf, hd, classifyDelivered]
    | false =>
      have hcov := hc.2 hf
      simp only [retrieve_instances_info_from_ec2, if_neg hp, hf, Bool.false_eq_true, if_false]
      exact (classifyDelivered_perm resp.delivered).trans hcov

/-- Loop invariant: with clean answers at every attempt, collected complete
ids plus remaining unresolved ids stay a permutation of what the loop was
given. -/
theorem reconLoop_perm (oracle : Nat → List String → Ec2Response) (jitter : Nat → Nat) (r : Nat)
    (Hclean : ∀ ac pids, cleanResponse (oracle ac pids) pids) :
    ∀ fuel ac inst pids sleeps q,
      (((reconLoop oracle jitter r fuel ac inst pids sleeps q).instances.map
          (fun d => d.instanceId))
        ++ (reconLoop oracle jitter r fuel ac inst pids sleeps q).unresolvedIds).Perm
        (inst.map (fun d => d.instanceId) ++ pids) := by
  intro fuel
  induction fuel with
  | zero => intro ac inst pids sleeps q; simp [reconLoop_zero]
  | succ n ih =>
    intro ac inst pids sleeps q
    rw [reconLoop_succ]
    by_cases hp : pids = []
    · simp [hp]
    · rw [if_neg hp]
      refine (ih _ _ _ _ _).trans ?_
      have e : (inst ++ (retrieve_instances_info_from_ec2 (oracle ac pids) pids).1).map
            (fun d => d.instanceId)
          = inst.map (fun d => d.instanceId)
            ++ (retrieve_instances_info_from_ec2 (oracle ac pids) pids).1.map
              (fun d => d.instanceId) := by simp
      rw [e, List.append_assoc]
      exact (retrieve_perm _ _ (Hclean ac pids)).append_left _

/-! ## Claims -/

/-- Claim C1: for strategy B request shaping with `count ≥ 1`,
`MinTargetCapacity` is present in the shaped launch options iff the compute
resource declares exactly one instance type or exactly one subnet id; when
present its value is `count` if all-or-nothing else `1`; and when both
conditions fail while all-or-nothing is requested, the warning is logged and
the shaped request has no `MinTargetCapacity`. -/
theorem claim_C1_min_target_capacity_admission (cluster_name queue compute_resource : String)
    (cfg : ComputeResourceConfig) (all_or_nothing : Bool) (count : Nat) (hc : 1 ≤ count) :
    ((Ec2CreateFleetManager.evaluate_launch_params cluster_name queue compute_resource cfg
        all_or_nothing count).MinTargetCapacity.isSome = true ↔
      cfg.Instances.length = 1 ∨ cfg.Networking.SubnetIds.length = 1)
    ∧ ((Ec2CreateFleetManager.evaluate_launch_params cluster_name queue compute_resource cfg
        all_or_nothing count).MinTargetCapacity.isSome = true →
      (Ec2CreateFleetManager.evaluate_launch_params cluster_name queue compute_resource cfg
        all_or_nothing count).MinTargetCapacity = some (if all_or_nothing then count else 1))
    ∧ (cfg.Instances.length ≠ 1 → cfg.Networking.SubnetIds.length ≠ 1 → all_or_nothing = true →
      (Ec2CreateFleetManager.evaluate_launch_params cluster_name queue compute_resource cfg
        all_or_nothing count).warningLogged = true
      ∧ (Ec2CreateFleetManager.evaluate_launch_params cluster_name queue compute_resource cfg
        all_or_nothing count).MinTargetCapacity = none) := by
  by_cases h1 : cfg.Instances.length = 1 <;>
    by_cases h2 : cfg.Networking.SubnetIds.length = 1 <;>
      simp [Ec2CreateFleetManager.evaluate_launch_params,
        Ec2CreateFleetManager.uses_single_instance_type, Ec2CreateFleetManager.uses_single_az,
        h1, h2]

/-- Witness for C1 at `cfgMulti` (2 instance types, 2 subnets),
all-or-nothing, `count = 3`: the warning fires and `MinTargetCapacity` is
absent; and at `cfgSingle` (1 instance type) the option is present with
value `count`. -/
theorem claim_C1_witness :
    ((Ec2CreateFleetManager.evaluate_launch_params "cl" "q1" "cr2" cfgMulti true 3).warningLogged
        = true
      ∧ (Ec2CreateFleetManager.evaluate_launch_params "cl" "q1" "cr2" cfgMulti
          true 3).MinTargetCapacity = none)
    ∧ (Ec2CreateFleetManager.evaluate_launch_params "cl" "q1" "cr1" cfgSingle
        true 3).MinTargetCapacity = some (if true then 3 else 1) :=
  ⟨(claim_C1_min_target_capacity_admission "cl" "q1" "cr2" cfgMulti true 3 (by decide)).2.2
      (by decide) (by decide) rfl,
    (claim_C1_min_target_capacity_admission "cl" "q1" "cr1" cfgSingle true 3 (by decide)).2.1
      (by decide)⟩

/-- Claim C2: when no id ever resolves (`Hnever`: every describe attempt
leaves every queried id unresolved), the loop makes exactly 5 query
attempts, returns no complete description and all original ids unresolved,
sleeps the fixed 100 ms before the first query, and sleeps exactly 4 times
between attempts (never after the last), the sleep after the `k`-th
(1-based) attempt being `300·2^k + jitter k` ms with `jitter k < 500`
(`secrets.randbelow(500)`), which makes the 4 backoffs strictly
increasing. -/
theorem claim_C2_reconciliation_exhaustion (oracle : Nat → List String → Ec2Response)
    (jitter : Nat → Nat) (ids : List String) (hne : ids ≠ []) (hj : ∀ k, jitter k < 500)
    (Hnever : ∀ ac pids, pids ≠ [] →
      retrieve_instances_info_from_ec2 (oracle ac pids) pids = ([], pids)) :
    get_instances_info oracle jitter ids =
      ⟨[], ids, [100, 300 * 2 ^ 1 + jitter 1, 300 * 2 ^ 2 + jitter 2,
        300 * 2 ^ 3 + jitter 3, 300 * 2 ^ 4 + jitter 4], 5⟩
    ∧ 300 * 2 ^ 1 + jitter 1 < 300 * 2 ^ 2 + jitter 2
    ∧ 300 * 2 ^ 2 + jitter 2 < 300 * 2 ^ 3 + jitter 3
    ∧ 300 * 2 ^ 3 + jitter 3 < 300 * 2 ^ 4 + jitter 4 := by
  have HN : ∀ ac, retrieve_instances_info_from_ec2 (oracle ac ids) ids = ([], ids) :=
    fun ac => Hnever ac ids hne
  have h1 := hj 1; have h2 := hj 2; have h3 := hj 3; have h4 := hj 4
  refine ⟨?_, ?_, ?_, ?_⟩
  · simp [get_instances_info, reconLoop_succ, reconLoop_zero, HN, hne]
  all_goals (simp only [pow_succ, pow_one]; omega)

/-- Witness for C2: an EC2 that faults on every attempt, jitter fixed at
7 ms, one id. -/
theorem claim_C2_witness :
    get_instances_info allFaultOracle (fun _ => 7) ["i-1"]
      = ⟨[], ["i-1"], [100, 607, 1207, 2407, 4807], 5⟩ := by
  have h := claim_C2_reconciliation_exhaustion allFaultOracle (fun _ => 7) ["i-1"]
    (by decide) (fun k => (by decide : (7 : Nat) < 500))
    (fun ac pids hp => by
      simp [retrieve_instances_info_from_ec2, allFaultOracle, hp, classifyDelivered])
  simpa using h.1

/-- Counterexample to claim C3 as stated: with `twoStepOracle` (ids resolve
across attempts 1 and 2) the loop does return everything complete after
exactly 2 attempts — but it still performs a backoff sleep after the second,
final attempt, because lines 401-402 sleep whenever `attempt_count < retries`
without checking whether any id is still unresolved.  The claim's "no
further sleeps" predicts the sleep list `[100, 600]` (initial delay plus the
one sleep between attempts, jitter 0); the code produces `[100, 600, 1200]`. -/
theorem claim_C3_counterexample :
    (get_instances_info twoStepOracle (fun _ => 0) ["i-1", "i-2"]).queries = 2
    ∧ (get_instances_info twoStepOracle (fun _ => 0) ["i-1", "i-2"]).unresolvedIds = []
    ∧ (get_instances_info twoStepOracle (fun _ => 0) ["i-1", "i-2"]).sleeps = [100, 600, 1200]
    ∧ (get_instances_info twoStepOracle (fun _ => 0) ["i-1", "i-2"]).sleeps ≠ [100, 600] := by
  decide

/-- Claim C3 as amended: when attempt 1 resolves part of the ids and
attempt 2 the rest, the loop returns all descriptions as complete after
exactly 2 query attempts and performs no further metadata queries — but it
sleeps twice, not once: one backoff sleep between the attempts and one more
after the second, final attempt. -/
theorem claim_C3_two_attempt_resolution (oracle : Nat → List String → Ec2Response)
    (jitter : Nat → Nat) (ids rest : List String) (c1 c2 : List InstDesc)
    (hne : ids ≠ []) (hrest : rest ≠ [])
    (H0 : retrieve_instances_info_from_ec2 (oracle 0 ids) ids = (c1, rest))
    (H1 : retrieve_instances_info_from_ec2 (oracle 1 rest) rest = (c2, []))
    (Hcov0 : (c1.map (fun d => d.instanceId) ++ rest).Perm ids)
    (Hcov1 : (c2.map (fun d => d.instanceId)).Perm rest) :
    get_instances_info oracle jitter ids =
      ⟨c1 ++ c2, [], [100, 300 * 2 ^ 1 + jitter 1, 300 * 2 ^ 2 + jitter 2], 2⟩
    ∧ ((c1 ++ c2).map (fun d => d.instanceId)).Perm ids := by
  constructor
  · simp [get_instances_info, reconLoop_succ, reconLoop_zero, H0, H1, hne, hrest]
  · have e : (c1 ++ c2).map (fun d => d.instanceId)
        = c1.map (fun d => d.instanceId) ++ c2.map (fun d => d.instanceId) := by simp
    rw [e]
    exact (Hcov1.append_left _).trans Hcov0

/-- Witness for the amended C3 at `twoStepOracle` with zero jitter. -/
theorem claim_C3_witness :
    get_instances_info twoStepOracle (fun _ => 0) ["i-1", "i-2"]
      = ⟨[goodDesc "i-1", goodDesc "i-2"], [], [100, 600, 1200], 2⟩ := by
  have h := claim_C3_two_attempt_resolution twoStepOracle (fun _ => 0) ["i-1", "i-2"] ["i-2"]
    [goodDesc "i-1"] [goodDesc "i-2"] (by decide) (by decide) (by decide) (by decide)
    (by decide) (by decide)
  simpa using h.1

/-- Claim C4: strategy B template overrides are the Cartesian product of the
declared instance types and subnet ids — exactly `N × M` entries, outer loop
over instance types and inner loop over subnet ids in declaration order —
and on the spot branch with a configured max price every entry carries that
same `MaxPrice`. -/
theorem claim_C4_template_overrides_product (cfg : ComputeResourceConfig) :
    (Ec2CreateFleetManager.evaluate_template_overrides cfg).length
      = cfg.Instances.length * cfg.Networking.SubnetIds.length
    ∧ (Ec2CreateFleetManager.evaluate_template_overrides cfg).map
        (fun o => (o.InstanceType, o.SubnetId))
      = (cfg.Instances.map (fun it => it.InstanceType)).product cfg.Networking.SubnetIds
    ∧ (cfg.CapacityType = "spot" → maxPriceTruthy cfg.MaxPrice = true →
      ∀ o ∈ Ec2CreateFleetManager.evaluate_template_overrides cfg,
        o.MaxPrice = cfg.MaxPrice) := by
  refine ⟨?_, ?_, ?_⟩
  · simp [Ec2CreateFleetManager.evaluate_template_overrides]
    induction cfg.Instances with
    | nil => simp
    | cons a l ih => simp [ih, Nat.succ_mul, Nat.add_comm]
  · simp [Ec2CreateFleetManager.evaluate_template_overrides, List.product]
    induction cfg.Instances with
    | nil => simp
    | cons a l ih => simp [ih]
  · intro hs hm o ho
    simp [Ec2CreateFleetManager.evaluate_template_overrides, hs, hm] at ho
    obtain ⟨it, hit, sn, hsn, rfl⟩ := ho
    simp [hs, hm]

/-- Witness for C4 at `cfgMulti` (spot, max price 0.5, 2 × 2): 4 entries in
instance-type-major order, each carrying `MaxPrice`. -/
theorem claim_C4_witness :
    (Ec2CreateFleetManager.evaluate_template_overrides cfgMulti).length = 2 * 2
    ∧ (Ec2CreateFleetManager.evaluate_template_overrides cfgMulti).map
        (fun o => (o.InstanceType, o.SubnetId))
      = [("c5.large", "subnet-1"), ("c5.large", "subnet-2"),
         ("m5.large", "subnet-1"), ("m5.large", "subnet-2")]
    ∧ ∀ o ∈ Ec2CreateFleetManager.evaluate_template_overrides cfgMulti,
        o.MaxPrice = some "0.5" := by
  have h := claim_C4_template_overrides_product cfgMulti
  exact ⟨h.1, by rw [h.2.1]; decide, h.2.2 rfl (by decide)⟩

/-- Claim C5: the factory returns the strategy-A (run-instances) manager for
API identifier `"run-instances"`, the strategy-B (create-fleet) manager for
`"create-fleet"` (each bound to the queue, compute resource, config,
all-or-nothing flag and its per-queue/per-resource override mapping), fails
with the error naming the unsupported value, queue and compute resource for
any other identifier, and fails with the missing-key errors when the queue,
compute resource or `Api` key is absent.  The side conditions
`queue ≠ "Api"` / `compute_resource ≠ "Api"` fence off the handler quirk of
lines 93-96, which classifies any missing key literally named `"Api"` as a
missing `Api` key. -/
theorem claim_C5_factory_dispatch (fleet_config : FleetConfigModel)
    (queue compute_resource : String) (all_or_nothing : Bool)
    (run_instances_overrides create_fleet_overrides : OverridesModel) :
    (∀ queue_config entry, dictGet fleet_config queue = some queue_config →
      dictGet queue_config compute_resource = some entry →
      ((entry.Api = some "run-instances" →
        FleetManagerFactory.get_manager fleet_config queue compute_resource all_or_nothing
            run_instances_overrides create_fleet_overrides
          = .ok (.runInstancesManager queue compute_resource entry.config all_or_nothing
              (dictGetD (dictGetD run_instances_overrides queue []) compute_resource [])))
      ∧ (entry.Api = some "create-fleet" →
        FleetManagerFactory.get_manager fleet_config queue compute_resource all_or_nothing
            run_instances_overrides create_fleet_overrides
          = .ok (.createFleetManager queue compute_resource entry.config all_or_nothing
              (dictGetD (dictGetD create_fleet_overrides queue []) compute_resource [])))
      ∧ (∀ api, entry.Api = some api → api ≠ "run-instances" → api ≠ "create-fleet" →
        FleetManagerFactory.get_manager fleet_config queue compute_resource all_or_nothing
            run_instances_overrides create_fleet_overrides
          = .error (.unsupportedApi api queue compute_resource))
      ∧ (entry.Api = none →
        FleetManagerFactory.get_manager fleet_config queue compute_resource all_or_nothing
            run_instances_overrides create_fleet_overrides
          = .error (.missingApiKey compute_resource))))
    ∧ (dictGet fleet_config queue = none → queue ≠ "Api" →
      FleetManagerFactory.get_manager fleet_config queue compute_resource all_or_nothing
          run_instances_overrides create_fleet_overrides
        = .error (.missingQueueOrComputeResource queue compute_resource))
    ∧ (∀ queue_config, dictGet fleet_config queue = some queue_config →
      dictGet queue_config compute_resource = none → compute_resource ≠ "Api" →
      FleetManagerFactory.get_manager fleet_config queue compute_resource all_or_nothing
          run_instances_overrides create_fleet_overrides
        = .error (.missingQueueOrComputeResource queue compute_resource)) := by
  refine ⟨?_, ?_, ?_⟩
  · intro queue_config entry hq hcr
    refine ⟨?_, ?_, ?_, ?_⟩
    · intro hapi
      simp [FleetManagerFactory.get_manager, hq, hcr, hapi]
    · intro hapi
      simp [FleetManagerFactory.get_manager, hq, hcr, hapi]
    · intro api hapi hri hcf
      simp [FleetManagerFactory.get_manager, hq, hcr, hapi, hri, hcf]
    · intro hapi
      simp [FleetManagerFactory.get_manager, hq, hcr, hapi, keyErrorMessage]
  · intro hq hneq
    simp [FleetManagerFactory.get_manager, hq, keyErrorMessage, hneq]
  · intro queue_config hq hcr hneq
    simp [FleetManagerFactory.get_manager, hq, hcr, keyErrorMessage, hneq]

/-- Witness for C5 on `fleetConfigW`: all four compute-resource branches and
the missing-queue branch at their concrete outcomes. -/
theorem claim_C5_witness :
    FleetManagerFactory.get_manager fleetConfigW "q1" "cr1" true [] []
      = .ok (.runInstancesManager "q1" "cr1" cfgSingle true [])
    ∧ FleetManagerFactory.get_manager fleetConfigW "q1" "cr2" true [] []
      = .ok (.createFleetManager "q1" "cr2" cfgMulti true [])
    ∧ FleetManagerFactory.get_manager fleetConfigW "q1" "cr3" true [] []
      = .error (.unsupportedApi "slurm" "q1" "cr3")
    ∧ FleetManagerFactory.get_manager fleetConfigW "q1" "cr4" true [] []
      = .error (.missingApiKey "cr4")
    ∧ FleetManagerFactory.get_manager fleetConfigW "q9" "cr1" true [] []
      = .error (.missingQueueOrComputeResource "q9" "cr1")
    ∧ FleetManagerFactory.get_manager fleetConfigW "q1" "cr9" true [] []
      = .error (.missingQueueOrComputeResource "q1" "cr9") := by
  refine ⟨?_, ?_, ?_, ?_, ?_, ?_⟩
  · exact (((claim_C5_factory_dispatch fleetConfigW "q1" "cr1" true [] []).1 queueConfigW
      ⟨some "run-instances", cfgSingle⟩ (by decide) (by decide)).1 (by decide))
  · exact (((claim_C5_factory_dispatch fleetConfigW "q1" "cr2" true [] []).1 queueConfigW
      ⟨some "create-fleet", cfgMulti⟩ (by decide) (by decide)).2.1 (by decide))
  · exact (((claim_C5_factory_dispatch fleetConfigW "q1" "cr3" true [] []).1 queueConfigW
      ⟨some "slurm", cfgMulti⟩ (by decide) (by decide)).2.2.1 "slurm" (by decide) (by decide)
      (by decide))
  · exact (((claim_C5_factory_dispatch fleetConfigW "q1" "cr4" true [] []).1 queueConfigW
      ⟨none, cfgMulti⟩ (by decide) (by decide)).2.2.2 (by decide))
  · exact ((claim_C5_factory_dispatch fleetConfigW "q9" "cr1" true [] []).2.1
      (by decide) (by decide))
  · exact ((claim_C5_factory_dispatch fleetConfigW "q1" "cr9" true [] []).2.2 queueConfigW
      (by decide) (by decide) (by decide))

/-- Claim C6: strategy A request shaping (before caller overrides) sets
`MinCount = count` when all-or-nothing else `1`, `MaxCount = count`, and a
launch template named `{cluster}-{queue}-{resource}` at `$Latest`. -/
theorem claim_C6_run_instances_shaping (cluster_name queue compute_resource : String)
    (all_or_nothing : Bool) (count : Nat) (hc : 1 ≤ count) :
    (Ec2RunInstancesManager.evaluate_launch_params cluster_name queue compute_resource
        all_or_nothing count).MinCount = (if all_or_nothing then count else 1)
    ∧ (Ec2RunInstancesManager.evaluate_launch_params cluster_name queue compute_resource
        all_or_nothing count).MaxCount = count
    ∧ (Ec2RunInstancesManager.evaluate_launch_params cluster_name queue compute_resource
        all_or_nothing count).LaunchTemplateName
      = cluster_name ++ "-" ++ queue ++ "-" ++ compute_resource
    ∧ (Ec2RunInstancesManager.evaluate_launch_params cluster_name queue compute_resource
        all_or_nothing count).LaunchTemplateVersion = "$Latest" := by
  cases all_or_nothing <;> simp [Ec2RunInstancesManager.evaluate_launch_params]

/-- Witness for C6 at cluster `cl`, queue `q1`, resource `cr1`,
all-or-nothing, `count = 3`. -/
theorem claim_C6_witness :
    (Ec2RunInstancesManager.evaluate_launch_params "cl" "q1" "cr1" true 3).MinCount = 3
    ∧ (Ec2RunInstancesManager.evaluate_launch_params "cl" "q1" "cr1" true 3).MaxCount = 3
    ∧ (Ec2RunInstancesManager.evaluate_launch_params "cl" "q1" "cr1"
        true 3).LaunchTemplateName = "cl-q1-cr1"
    ∧ (Ec2RunInstancesManager.evaluate_launch_params "cl" "q1" "cr1"
        true 3).LaunchTemplateVersion = "$Latest" := by
  have h := claim_C6_run_instances_shaping "cl" "q1" "cr1" true 3 (by decide)
  simpa using h

/-- Claim C7: a `ClientError` from the describe call of an attempt does not
escape the loop (the model's `retrieve_instances_info_from_ec2` returns
normally on a faulted response — the `except ClientError` of lines 430-432):
every id queried on the faulting attempt is reported unresolved for that
attempt, and the loop goes on to a further attempt within its budget. -/
theorem claim_C7_describe_fault_nonfatal (oracle : Nat → List String → Ec2Response)
    (jitter : Nat → Nat) (ids : List String) (hne : ids ≠ [])
    (hf : (oracle 0 ids).faulted = true) :
    (∀ i ∈ ids, i ∈ (retrieve_instances_info_from_ec2 (oracle 0 ids) ids).2)
    ∧ 2 ≤ (get_instances_info oracle jitter ids).queries := by
  constructor
  · intro i hi
    simp [retrieve_instances_info_from_ec2, hne, hf]
    right; exact hi
  · have h2 : (retrieve_instances_info_from_ec2 (oracle 0 ids) ids).2 ≠ [] := by
      simp [retrieve_instances_info_from_ec2, hne, hf]
    rw [get_instances_info, show (5 : Nat) = 4 + 1 from rfl, reconLoop_succ, if_neg hne,
      reconLoop_succ, if_neg h2]
    exact reconLoop_queries_ge _ _ _ _ _ _ _ _ _

/-- Witness for C7 at `faultyOracle` (attempt 1 faults mid-pagination). -/
theorem claim_C7_witness :
    (∀ i ∈ ["i-1"],
      i ∈ (retrieve_instances_info_from_ec2 (faultyOracle 0 ["i-1"]) ["i-1"]).2)
    ∧ 2 ≤ (get_instances_info faultyOracle (fun _ => 0) ["i-1"]).queries :=
  claim_C7_describe_fault_nonfatal faultyOracle (fun _ => 0) ["i-1"] (by decide) (by decide)

/-- Counterexample to claim C8 as stated: with `faultyOracle`, attempt 1
delivers a complete description for `i-1` and then faults, so lines 430-432
re-add `i-1` to the unresolved list although its description already sits in
`complete_instances`; attempt 2 resolves it again, and the final resolved
list reports `i-1` twice — the claimed partition fails exactly in the run
the claim singles out (a fault after some ids of the attempt parsed). -/
theorem claim_C8_counterexample :
    ((get_instances_info faultyOracle (fun _ => 0) ["i-1"]).instances.map
      (fun d => d.instanceId)) = ["i-1", "i-1"]
    ∧ ¬ (((get_instances_info faultyOracle (fun _ => 0) ["i-1"]).instances.map
        (fun d => d.instanceId))
      ++ (get_instances_info faultyOracle (fun _ => 0) ["i-1"]).unresolvedIds).Nodup := by
  decide

/-- Claim C8 as amended: the returned pair partitions the input ids provided
every faulting attempt delivers no descriptions before raising (and
non-faulting attempts answer one description per queried id): resolved ids
plus unresolved ids are a permutation of the input, so for duplicate-free
input every id lands in exactly one of the two lists, exactly once.  When an
attempt faults after some of its descriptions parsed, those ids are reported
both resolved and still-unresolved for that attempt and can be duplicated in
the final resolved list (see the counterexample). -/
theorem claim_C8_resolve_partition (oracle : Nat → List String → Ec2Response)
    (jitter : Nat → Nat) (ids : List String)
    (Hclean : ∀ ac pids, cleanResponse (oracle ac pids) pids) :
    (((get_instances_info oracle jitter ids).instances.map (fun d => d.instanceId))
      ++ (get_instances_info oracle jitter ids).unresolvedIds).Perm ids
    ∧ (ids.Nodup →
      (((get_instances_info oracle jitter ids).instances.map (fun d => d.instanceId))
        ++ (get_instances_info oracle jitter ids).unresolvedIds).Nodup) := by
  have h := reconLoop_perm oracle jitter 5 Hclean 5 0 [] ids [100] 0
  simp only [List.map_nil, List.nil_append] at h
  exact ⟨h, fun hnd => h.symm.nodup hnd⟩

/-- Witness for the amended C8 at `resolveAllOracle` on two ids. -/
theorem claim_C8_witness :
    (((get_instances_info resolveAllOracle (fun _ => 0) ["i-1", "i-2"]).instances.map
        (fun d => d.instanceId))
      ++ (get_instances_info resolveAllOracle (fun _ => 0) ["i-1", "i-2"]).unresolvedIds).Perm
      ["i-1", "i-2"]
    ∧ (((get_instances_info resolveAllOracle (fun _ => 0) ["i-1", "i-2"]).instances.map
        (fun d => d.instanceId))
      ++ (get_instances_info resolveAllOracle (fun _ => 0) ["i-1", "i-2"]).unresolvedIds).Nodup := by
  have hmap : ∀ pids : List String, (pids.map goodDesc).map (fun d => d.instanceId) = pids := by
    intro pids
    induction pids with
    | nil => rfl
    | cons a l ih => simp [goodDesc, ih]
  have h := claim_C8_resolve_partition resolveAllOracle (fun _ => 0) ["i-1", "i-2"]
    (fun ac pids => ⟨fun hf => by simp [resolveAllOracle] at hf,
      fun _ => by
        show ((pids.map goodDesc).map (fun d => d.instanceId)).Perm pids
        rw [hmap pids]⟩)
  exact ⟨h.1, h.2 (by decide)⟩

/-- Claim C9: two records constructed by this module (`slurm_node` still
`None`) compare equal iff their four data-model attributes — id, private IP,
hostname, launch timestamp — are all equal, and the hash is a function of
the instance id alone, so same-id records hash identically whatever their
other fields. -/
theorem claim_C9_record_equality_and_hash (strHash : String → Nat) (a b : EC2Instance)
    (ha : a.slurm_node = none) (hb : b.slurm_node = none) :
    (a.eqPy b = true ↔
      a.id = b.id ∧ a.private_ip = b.private_ip ∧ a.hostname = b.hostname
        ∧ a.launch_time = b.launch_time)
    ∧ (a.id = b.id → a.hashPy strHash = b.hashPy strHash) := by
  constructor
  · simp [EC2Instance.eqPy, ha, hb, and_assoc]
  · intro h
    simp [EC2Instance.hashPy, h]

/-- Witness for C9: two records sharing an id but differing in every other
data field — unequal, yet hashing identically (here under `String.length`
standing for the external string hash). -/
theorem claim_C9_witness :
    ((⟨"i-1", "10.0.0.1", "h1", 5, none⟩ : EC2Instance).eqPy
        ⟨"i-1", "10.0.0.2", "h2", 7, none⟩ = true ↔
      ("i-1" : String) = "i-1" ∧ ("10.0.0.1" : String) = "10.0.0.2"
        ∧ ("h1" : String) = "h2" ∧ (5 : Nat) = 7)
    ∧ (("i-1" : String) = "i-1" →
      EC2Instance.hashPy String.length ⟨"i-1", "10.0.0.1", "h1", 5, none⟩
        = EC2Instance.hashPy String.length ⟨"i-1", "10.0.0.2", "h2", 7, none⟩) :=
  claim_C9_record_equality_and_hash String.length
    ⟨"i-1", "10.0.0.1", "h1", 5, none⟩ ⟨"i-1", "10.0.0.2", "h2", 7, none⟩ rfl rfl

/-- Claim C10: a successful `create_fleet` response with zero launched
instance ids yields the empty record list without raising - the
reconciliation loop makes no describe query (only the fixed initial 100 ms
delay happens), nothing is reported unresolved, and neither the
unresolved-ids error nor the launched-instances info summary is logged. -/
theorem claim_C10_zero_launched_ids (oracle : Nat → List String → Ec2Response)
    (jitter : Nat → Nat) (response : CreateFleetResponse)
    (h : response.Instances.flatMap (fun g => g.InstanceIds) = []) :
    createFleetLaunch oracle jitter response = ⟨some [], [], [100], 0, false, false⟩ := by
  simp [createFleetLaunch, h, get_instances_info, reconLoop_succ, List.mapM, List.mapM.loop]

/-- Witness for C10 at `emptyLaunchResponse` (one empty id group, partial
errors present). -/
theorem claim_C10_witness :
    createFleetLaunch allFaultOracle (fun _ => 0) emptyLaunchResponse
      = ⟨some [], [], [100], 0, false, false⟩ :=
  claim_C10_zero_launched_ids allFaultOracle (fun _ => 0) emptyLaunchResponse (by decide)
